import Mathlib

set_option maxRecDepth 40000

/-!
Verification of the severity-classification and recommendation logic of the
Road-Surface-Assessment application (`src/app.py`), shallowly embedded in Lean.

Confidence scores are modelled as rationals (`ℚ`); the detection list consumed
by the rendering code is modelled as a list of `(label, confidence)` pairs.
Python dictionaries are modelled as association lists with `List.lookup`
(mirroring `dict.get`), and the fallible dictionary subscript in
`reconstruction_steps` is modelled with `Option`.
-/

namespace RoadSurface

/-- Embeds `assess_severity(conf)` from `src/app.py` (lines 74-80):
`conf < 0.40` gives the Low tuple, `conf < 0.70` the Moderate tuple,
otherwise the Severe tuple. -/
def assess_severity (conf : ℚ) : String × String × ℚ × String :=
  if conf < mkRat 2 5 then
    ("Low", "low", mkRat 3 10, "Minor surface damage with no immediate safety risk.")
  else if conf < mkRat 7 10 then
    ("Moderate", "moderate", mkRat 6 10, "Damage may worsen and affect ride quality.")
  else
    ("Severe", "severe", mkRat 9 10, "Critical damage posing serious safety risks.")

/-- The nested `actions` dictionary of `recommendation` in `src/app.py`
(lines 83-99), as an association list of association lists. -/
def actions : List (String × List (String × String)) :=
  [ ("crack",
      [ ("Low", "Seal cracks to prevent water penetration."),
        ("Moderate", "Crack filling followed by surface overlay."),
        ("Severe", "Immediate resurfacing required.") ]),
    ("pothole",
      [ ("Low", "Temporary patch repair recommended."),
        ("Moderate", "Permanent patch repair with compaction."),
        ("Severe", "Urgent full-depth reconstruction required.") ]),
    ("manhole",
      [ ("Low", "Routine inspection advised."),
        ("Moderate", "Level adjustment and reinforcement needed."),
        ("Severe", "Immediate structural correction required.") ]) ]

/-- Embeds `recommendation(label, severity)` from `src/app.py` (lines 82-100):
the nested `dict.get` chain with an empty row for an unknown label and the
default string "Standard maintenance recommended." for an unknown severity. -/
def recommendation (label severity : String) : String :=
  (((actions.lookup label).getD []).lookup severity).getD
    "Standard maintenance recommended."

/-- The `"Low"` plan string of `reconstruction_steps` (`src/app.py` lines 104-110),
byte-exact including the markdown double-space line breaks. -/
def low_plan : String :=
  "\n**Reconstruction Process (Low Severity)**  \n1. Visual inspection  \n2. Cleaning debris  \n3. Crack sealing / minor patching  \n4. Periodic monitoring  \n"

/-- The `"Moderate"` plan string of `reconstruction_steps` (`src/app.py` lines 111-118). -/
def moderate_plan : String :=
  "\n**Reconstruction Process (Moderate Severity)**  \n1. Detailed site inspection  \n2. Marking damaged zones  \n3. Crack filling / patch repair  \n4. Surface overlay  \n5. Compaction and leveling  \n"

/-- The `"Severe"` plan string of `reconstruction_steps` (`src/app.py` lines 119-126). -/
def severe_plan : String :=
  "\n**Reconstruction Process (Severe Severity)**  \n1. Traffic diversion and safety barricades  \n2. Removal of damaged layers  \n3. Structural base repair  \n4. Full resurfacing  \n5. Quality and load inspection  \n"

/-- Embeds `reconstruction_steps(severity)` from `src/app.py` (lines 102-127).
The Python code subscripts a dictionary (`{...}[severity]`), which raises
`KeyError` on any key outside the three tiers; that failure is `none` here. -/
def reconstruction_steps (severity : String) : Option String :=
  if severity = "Low" then some low_plan
  else if severity = "Moderate" then some moderate_plan
  else if severity = "Severe" then some severe_plan
  else none

/-- A line of a plan string counts as a numbered step when it starts with a
digit (the plans number their steps `1.`, `2.`, ...). -/
def is_step_line (l : String) : Bool :=
  match l.data with
  | [] => false
  | c :: _ => c.isDigit

/-- Splits a character list into newline-separated chunks (`acc` holds the
current line, reversed). -/
def split_lines_aux : List Char → List Char → List String
  | [], acc => [String.mk acc.reverse]
  | c :: cs, acc =>
    if c = '\n' then String.mk acc.reverse :: split_lines_aux cs []
    else split_lines_aux cs (c :: acc)

/-- Splits a string into its newline-separated lines. -/
def split_lines (s : String) : List String :=
  split_lines_aux s.data []

/-- The ordered numbered-step lines of a plan string. -/
def plan_step_lines (s : String) : List String :=
  (split_lines s).filter is_step_line

/-- The per-detection report block built in the display loop of `src/app.py`
(lines 193-197): `f"{label.upper()} | Severity: {severity}\nCondition:
{explanation}\nAction: {action}"`. -/
def issue_block (label : String) (conf : ℚ) : String :=
  let r := assess_severity conf
  label.toUpper ++ " | Severity: " ++ r.1 ++ "\nCondition: " ++ r.2.2.2 ++
    "\nAction: " ++ recommendation label r.1

/-- The `issues` list accumulated by the display loop (`src/app.py`
lines 181-197), one block per detection, in input order. -/
def issues (dets : List (String × ℚ)) : List String :=
  dets.map fun d => issue_block d.1 d.2

/-- The literal text of the report f-string before the `datetime.now()`
interpolation (`src/app.py` lines 220-223).  The f-string opens with a line
break, so the header starts with `"\n"`. -/
def report_header : String :=
  "\nROAD CONDITION ANALYSIS REPORT\n------------------------------\nDate & Time: "

/-- The literal text of the report f-string after the timestamp
(`src/app.py` lines 223-227). -/
def report_mid : String :=
  "\n\nDetected Issues:\n----------------\n"

/-- Embeds the report assembly of `src/app.py` (lines 220-227): the f-string
header with the timestamp interpolated, followed by `"\n\n".join(issues)`. -/
def report_text (ts : String) (dets : List (String × ℚ)) : String :=
  report_header ++ ts ++ report_mid ++ String.intercalate "\n\n" (issues dets)

/-- The structured content of one rendered per-detection display block
(`st.markdown` call, `src/app.py` lines 199-208): the sequential damage
label, the upper-cased type, and the classified severity data interpolated
into the HTML template. -/
structure DisplayBlock where
  damageLabel : String
  dtype : String
  confidence : ℚ
  severity : String
  explanation : String
  action : String
  deriving Repr, DecidableEq

/-- The display block rendered for the detection at (1-based) position `i`
(`src/app.py` lines 199-208; the source interpolates `Damage {i+1}` for the
0-based loop index). -/
def render_block (i : Nat) (d : String × ℚ) : DisplayBlock :=
  let r := assess_severity d.2
  { damageLabel := "Damage " ++ toString i,
    dtype := d.1.toUpper,
    confidence := d.2,
    severity := r.1,
    explanation := r.2.2.2,
    action := recommendation d.1 r.1 }

/-- The display loop of `src/app.py` (lines 184-214): `for i, box in
enumerate(boxes)` renders one block per detection, in input order, with the
1-based label `Damage {i+1}`. -/
def display_blocks (dets : List (String × ℚ)) : List DisplayBlock :=
  dets.enum.map fun p => render_block (p.1 + 1) p.2

/-- The severity tier assigned to a confidence score: the first component of
the `assess_severity` tuple. -/
def tier (c : ℚ) : String :=
  (assess_severity c).1

/-- Modelled from the spec: the report's literal text structure given in
spec section 6, starting at the `ROAD CONDITION ANALYSIS REPORT` header line,
with the timestamp and the classified per-detection blocks interpolated and
the blocks separated by blank lines. -/
def spec_report (ts : String) (dets : List (String × ℚ)) : String :=
  "ROAD CONDITION ANALYSIS REPORT\n------------------------------\nDate & Time: " ++ ts ++
    "\n\nDetected Issues:\n----------------\n" ++
    String.intercalate "\n\n" (dets.map fun d => issue_block d.1 d.2)

theorem str_append_assoc (a b c : String) : a ++ b ++ c = a ++ (b ++ c) := by
  rcases a with ⟨a⟩
  rcases b with ⟨b⟩
  rcases c with ⟨c⟩
  show String.append (String.append ⟨a⟩ ⟨b⟩) ⟨c⟩ = String.append ⟨a⟩ (String.append ⟨b⟩ ⟨c⟩)
  simp [String.append, List.append_assoc]

theorem str_append_empty (a : String) : a ++ "" = a := by
  rcases a with ⟨a⟩
  show String.append ⟨a⟩ ⟨[]⟩ = ⟨a⟩
  simp [String.append]

/-- C1: for every confidence `c`, `assess_severity` returns exactly the tuple
fixed by the thresholds — `c < 0.40` gives the Low tuple, `0.40 ≤ c < 0.70`
the Moderate tuple, `0.70 ≤ c` the Severe tuple — and the boundary inputs
`0.40`, `0.70`, `0`, `1` map to Moderate, Severe, Low and Severe. -/
theorem assess_severity_thresholds (c : ℚ) :
    (c < mkRat 2 5 →
      assess_severity c =
        ("Low", "low", mkRat 3 10, "Minor surface damage with no immediate safety risk.")) ∧
    (mkRat 2 5 ≤ c → c < mkRat 7 10 →
      assess_severity c =
        ("Moderate", "moderate", mkRat 6 10, "Damage may worsen and affect ride quality.")) ∧
    (mkRat 7 10 ≤ c →
      assess_severity c =
        ("Severe", "severe", mkRat 9 10, "Critical damage posing serious safety risks.")) ∧
    assess_severity (mkRat 2 5) =
      ("Moderate", "moderate", mkRat 6 10, "Damage may worsen and affect ride quality.") ∧
    assess_severity (mkRat 7 10) =
      ("Severe", "severe", mkRat 9 10, "Critical damage posing serious safety risks.") ∧
    assess_severity 0 =
      ("Low", "low", mkRat 3 10, "Minor surface damage with no immediate safety risk.") ∧
    assess_severity 1 =
      ("Severe", "severe", mkRat 9 10, "Critical damage posing serious safety risks.") := by
  refine ⟨?_, ?_, ?_, by decide, by decide, by decide, by decide⟩
  · intro h
    simp [assess_severity, h]
  · intro h1 h2
    simp [assess_severity, not_lt.mpr h1, h2]
  · intro h
    have h1 : ¬ c < mkRat 2 5 := not_lt.mpr (le_trans (by decide) h)
    have h2 : ¬ c < mkRat 7 10 := not_lt.mpr h
    simp [assess_severity, h1, h2]

/-- C1 witness: the theorem applied at the concrete confidence 0.5. -/
theorem assess_severity_thresholds_witness :
    mkRat 2 5 ≤ mkRat 1 2 ∧ mkRat 1 2 < mkRat 7 10 ∧
    assess_severity (mkRat 1 2) =
      ("Moderate", "moderate", mkRat 6 10, "Damage may worsen and affect ride quality.") :=
  ⟨by decide, by decide,
    (assess_severity_thresholds (mkRat 1 2)).2.1 (by decide) (by decide)⟩

/-- C3: `recommendation` agrees with the fixed nine-entry table on the three
known labels crossed with the three tiers; in particular
`recommendation "pothole" "Severe"` is the urgent-reconstruction string. -/
theorem recommendation_table :
    recommendation "crack" "Low" = "Seal cracks to prevent water penetration." ∧
    recommendation "crack" "Moderate" = "Crack filling followed by surface overlay." ∧
    recommendation "crack" "Severe" = "Immediate resurfacing required." ∧
    recommendation "pothole" "Low" = "Temporary patch repair recommended." ∧
    recommendation "pothole" "Moderate" = "Permanent patch repair with compaction." ∧
    recommendation "pothole" "Severe" = "Urgent full-depth reconstruction required." ∧
    recommendation "manhole" "Low" = "Routine inspection advised." ∧
    recommendation "manhole" "Moderate" = "Level adjustment and reinforcement needed." ∧
    recommendation "manhole" "Severe" = "Immediate structural correction required." := by
  decide

/-- C5: `reconstruction_steps` maps each tier to its fixed plan string, and the
ordered numbered-step lines of those plans are exactly the fixed sequences,
of lengths 4 (Low), 5 (Moderate) and 5 (Severe). -/
theorem reconstruction_steps_lengths :
    reconstruction_steps "Low" = some low_plan ∧
    reconstruction_steps "Moderate" = some moderate_plan ∧
    reconstruction_steps "Severe" = some severe_plan ∧
    plan_step_lines low_plan =
      ["1. Visual inspection  ", "2. Cleaning debris  ",
       "3. Crack sealing / minor patching  ", "4. Periodic monitoring  "] ∧
    plan_step_lines moderate_plan =
      ["1. Detailed site inspection  ", "2. Marking damaged zones  ",
       "3. Crack filling / patch repair  ", "4. Surface overlay  ",
       "5. Compaction and leveling  "] ∧
    plan_step_lines severe_plan =
      ["1. Traffic diversion and safety barricades  ", "2. Removal of damaged layers  ",
       "3. Structural base repair  ", "4. Full resurfacing  ",
       "5. Quality and load inspection  "] ∧
    (plan_step_lines low_plan).length = 4 ∧
    (plan_step_lines moderate_plan).length = 5 ∧
    (plan_step_lines severe_plan).length = 5 := by
  decide

/-- C10: `assess_severity` is total over all rational inputs; every
out-of-range confidence below 0 yields the Low tuple and every confidence
above 1 yields the Severe tuple (no clamping, rejection or failure). -/
theorem assess_severity_out_of_range (c : ℚ) :
    (c < 0 →
      assess_severity c =
        ("Low", "low", mkRat 3 10, "Minor surface damage with no immediate safety risk.")) ∧
    (1 < c →
      assess_severity c =
        ("Severe", "severe", mkRat 9 10, "Critical damage posing serious safety risks.")) := by
  constructor
  · intro h
    have h1 : c < mkRat 2 5 := lt_trans h (by decide)
    simp [assess_severity, h1]
  · intro h
    have h2 : mkRat 7 10 ≤ c := le_trans (by decide) (le_of_lt h)
    have h1 : ¬ c < mkRat 2 5 := not_lt.mpr (le_trans (by decide) h2)
    simp [assess_severity, h1, not_lt.mpr h2]

/-- C10 witness: the theorem applied at the out-of-range confidences -1 and 2. -/
theorem assess_severity_out_of_range_witness :
    (-1 : ℚ) < 0 ∧ (1 : ℚ) < 2 ∧
    assess_severity (-1) =
      ("Low", "low", mkRat 3 10, "Minor surface damage with no immediate safety risk.") ∧
    assess_severity 2 =
      ("Severe", "severe", mkRat 9 10, "Critical damage posing serious safety risks.") :=
  ⟨by decide, by decide,
    (assess_severity_out_of_range (-1)).1 (by decide),
    (assess_severity_out_of_range 2).2 (by decide)⟩

/-- C2: on [0,1] the confidence-to-tier mapping is total (every confidence
gets one of the three tier strings, and at most one since the strings are
distinct) and each tier's preimage within [0,1] is a contiguous interval:
[0, 0.40) for Low, [0.40, 0.70) for Moderate, and [0.70, 1] for Severe (the
truncation to [0,1] of the half-open interval [0.70, ∞)). -/
theorem tier_partition (c : ℚ) (h0 : 0 ≤ c) (h1 : c ≤ 1) :
    (tier c = "Low" ∨ tier c = "Moderate" ∨ tier c = "Severe") ∧
    (tier c = "Low" ↔ c ∈ Set.Ico (0 : ℚ) (mkRat 2 5)) ∧
    (tier c = "Moderate" ↔ c ∈ Set.Ico (mkRat 2 5) (mkRat 7 10)) ∧
    (tier c = "Severe" ↔ c ∈ Set.Icc (mkRat 7 10) 1) := by
  simp only [Set.mem_Ico, Set.mem_Icc]
  unfold tier assess_severity
  split_ifs with ha hb
  · refine ⟨Or.inl rfl, ⟨fun _ => ⟨h0, ha⟩, fun _ => rfl⟩, ?_, ?_⟩
    · exact ⟨fun hx => absurd hx (by decide), fun hx => absurd hx.1 (not_le.mpr ha)⟩
    · exact ⟨fun hx => absurd hx (by decide),
        fun hx => absurd hx.1 (not_le.mpr (lt_trans ha (by decide)))⟩
  · refine ⟨Or.inr (Or.inl rfl), ?_, ⟨fun _ => ⟨not_lt.mp ha, hb⟩, fun _ => rfl⟩, ?_⟩
    · exact ⟨fun hx => absurd hx (by decide),
        fun hx => absurd hx.2 (not_lt.mpr (not_lt.mp ha))⟩
    · exact ⟨fun hx => absurd hx (by decide), fun hx => absurd hx.1 (not_le.mpr hb)⟩
  · refine ⟨Or.inr (Or.inr rfl), ?_, ?_, ⟨fun _ => ⟨not_lt.mp hb, h1⟩, fun _ => rfl⟩⟩
    · exact ⟨fun hx => absurd hx (by decide),
        fun hx => absurd hx.2 (not_lt.mpr (le_trans (by decide) (not_lt.mp hb)))⟩
    · exact ⟨fun hx => absurd hx (by decide), fun hx => absurd hx.2 (not_lt.mpr (not_lt.mp hb))⟩

/-- C2 witness: the theorem applied at the concrete confidence 0.5. -/
theorem tier_partition_witness :
    (tier (mkRat 1 2) = "Low" ∨ tier (mkRat 1 2) = "Moderate" ∨ tier (mkRat 1 2) = "Severe") ∧
    (tier (mkRat 1 2) = "Low" ↔ mkRat 1 2 ∈ Set.Ico (0 : ℚ) (mkRat 2 5)) ∧
    (tier (mkRat 1 2) = "Moderate" ↔ mkRat 1 2 ∈ Set.Ico (mkRat 2 5) (mkRat 7 10)) ∧
    (tier (mkRat 1 2) = "Severe" ↔ mkRat 1 2 ∈ Set.Icc (mkRat 7 10) 1) :=
  tier_partition (mkRat 1 2) (by decide) (by decide)

/-- C4: for every pair with an unknown label or an unknown tier,
`recommendation` returns the default string and does not fail. -/
theorem recommendation_default (label sev : String)
    (h : (label ≠ "crack" ∧ label ≠ "pothole" ∧ label ≠ "manhole") ∨
         (sev ≠ "Low" ∧ sev ≠ "Moderate" ∧ sev ≠ "Severe")) :
    recommendation label sev = "Standard maintenance recommended." := by
  rcases h with ⟨h1, h2, h3⟩ | ⟨h1, h2, h3⟩
  · have e1 : (label == "crack") = false := beq_eq_false_iff_ne.mpr h1
    have e2 : (label == "pothole") = false := beq_eq_false_iff_ne.mpr h2
    have e3 : (label == "manhole") = false := beq_eq_false_iff_ne.mpr h3
    simp [recommendation, actions, List.lookup, e1, e2, e3]
  · have f1 : (sev == "Low") = false := beq_eq_false_iff_ne.mpr h1
    have f2 : (sev == "Moderate") = false := beq_eq_false_iff_ne.mpr h2
    have f3 : (sev == "Severe") = false := beq_eq_false_iff_ne.mpr h3
    by_cases k1 : label = "crack"
    · simp [recommendation, actions, List.lookup, k1, f1, f2, f3]
    · by_cases k2 : label = "pothole"
      · simp [recommendation, actions, List.lookup, k2, f1, f2, f3]
      · by_cases k3 : label = "manhole"
        · simp [recommendation, actions, List.lookup, k3, f1, f2, f3]
        · have e1 : (label == "crack") = false := beq_eq_false_iff_ne.mpr k1
          have e2 : (label == "pothole") = false := beq_eq_false_iff_ne.mpr k2
          have e3 : (label == "manhole") = false := beq_eq_false_iff_ne.mpr k3
          simp [recommendation, actions, List.lookup, e1, e2, e3]

/-- C4 witness: the theorem applied at the unknown label of the spec's
testable property. -/
theorem recommendation_default_witness :
    recommendation "unknown_label" "Low" = "Standard maintenance recommended." :=
  recommendation_default "unknown_label" "Low" (Or.inl (by decide))

/-- C6: `reconstruction_steps` fails (returns `none`, the embedding of the
`KeyError` of the dictionary subscript) on every severity outside the three
tiers, and that branch is unreachable on classifier output: for every
confidence, the tier produced by `assess_severity` yields a plan. -/
theorem reconstruction_steps_domain :
    (∀ sev : String, sev ≠ "Low" → sev ≠ "Moderate" → sev ≠ "Severe" →
      reconstruction_steps sev = none) ∧
    (∀ c : ℚ, (reconstruction_steps (assess_severity c).1).isSome = true) := by
  constructor
  · intro sev h1 h2 h3
    simp [reconstruction_steps, h1, h2, h3]
  · intro c
    unfold assess_severity
    split_ifs <;> decide

/-- C6 witness: the theorem applied at the out-of-enum severity "Critical"
and at the concrete confidence 0.5. -/
theorem reconstruction_steps_domain_witness :
    reconstruction_steps "Critical" = none ∧
    (reconstruction_steps (assess_severity (mkRat 1 2)).1).isSome = true :=
  ⟨reconstruction_steps_domain.1 "Critical" (by decide) (by decide) (by decide),
    reconstruction_steps_domain.2 (mkRat 1 2)⟩

/-- C7 counterexample: the produced report is not byte-for-byte the literal
structure that starts at the header line — the source f-string opens with a
line break, so the report carries a leading newline before the header. -/
theorem report_text_ne_spec : report_text "T" [] ≠ spec_report "T" [] := by
  decide

/-- C7 (amended): the produced report is exactly one leading newline followed
by the spec's literal structure — header line, dash rule, timestamp line,
blank line, the Detected Issues heading with its dash rule, and the
per-detection blocks joined blank-line separated. -/
theorem report_text_structure (ts : String) (dets : List (String × ℚ)) :
    report_text ts dets = "\n" ++ spec_report ts dets := by
  have h : report_header =
      "\n" ++ "ROAD CONDITION ANALYSIS REPORT\n------------------------------\nDate & Time: " := by
    decide
  simp only [report_text, spec_report, issues, report_mid, h, str_append_assoc]

/-- C8: for the empty detection list, the joined per-detection text is the
empty string and the report is only the header portion (header, timestamp
line and the Detected Issues heading), with no per-detection block. -/
theorem report_text_empty (ts : String) :
    String.intercalate "\n\n" (issues []) = "" ∧
    report_text ts [] = report_header ++ ts ++ report_mid := by
  refine ⟨rfl, ?_⟩
  unfold report_text
  rw [show String.intercalate "\n\n" (issues ([] : List (String × ℚ))) = "" from rfl]
  exact str_append_empty _

/-- C9: for every list of detections, the display loop renders exactly one
block per detection, in input order, and the block at (0-based) position k
carries the 1-based sequential label "Damage k+1". -/
theorem display_blocks_spec (dets : List (String × ℚ)) :
    (display_blocks dets).length = dets.length ∧
    ∀ (k : Nat) (h : k < dets.length),
      (display_blocks dets)[k]? = some (render_block (k + 1) (dets.get ⟨k, h⟩)) ∧
      (render_block (k + 1) (dets.get ⟨k, h⟩)).damageLabel = "Damage " ++ toString (k + 1) := by
  refine ⟨by simp [display_blocks], ?_⟩
  intro k h
  refine ⟨?_, rfl⟩
  simp [display_blocks, List.getElem?_map, List.getElem?_enum,
    List.getElem?_eq_getElem, h, List.get_eq_getElem]

/-- C9 witness: the theorem applied to a concrete two-detection list at
position 1, whose block carries the label "Damage 2". -/
theorem display_blocks_spec_witness :
    (1 : Nat) < ([("crack", mkRat 1 2), ("pothole", mkRat 4 5)] : List (String × ℚ)).length ∧
    (display_blocks [("crack", mkRat 1 2), ("pothole", mkRat 4 5)])[1]? =
      some (render_block (1 + 1)
        (([("crack", mkRat 1 2), ("pothole", mkRat 4 5)] : List (String × ℚ)).get ⟨1, by decide⟩)) ∧
    (render_block (1 + 1)
        (([("crack", mkRat 1 2), ("pothole", mkRat 4 5)] :
          List (String × ℚ)).get ⟨1, by decide⟩)).damageLabel =
      "Damage " ++ toString (1 + 1) :=
  ⟨by decide,
    ((display_blocks_spec [("crack", mkRat 1 2), ("pothole", mkRat 4 5)]).2 1 (by decide)).1,
    ((display_blocks_spec [("crack", mkRat 1 2), ("pothole", mkRat 4 5)]).2 1 (by decide)).2⟩

end RoadSurface
